import Mathlib

/-!
Formal model of the DocRAG retrieval pipeline, shallowly embedded from
src/rag_pipeline.py (class RAGPipeline) and src/main.py (FastAPI handlers).

Modelling conventions:
* Python lists become Lean `List`s; the slice `xs[i:]` is `pySliceFrom i xs`.
* The mutable `RAGPipeline` object becomes an explicit state record; every
  method returns its result together with the successor state.
* External black boxes are parameters: the LangChain text splitter is a
  function argument `split`, the rag-chain invocation (`self.rag_chain.invoke`)
  is an oracle `gen : Except String (String × List String)` giving either the
  generated (response, sources) pair or the message of the raised exception.
* `datetime.now().isoformat()` is an abstract `ts : Nat` argument.
-/

namespace DocRAG

/-- Python list slicing `xs[i:]`: a negative start counts from the end and is
clamped at 0 (`Int.toNat` clamps), a nonnegative start is clamped at the
length.  In particular `xs[-0:] = xs[0:]` is the whole list. -/
def pySliceFrom {α : Type} (i : Int) (xs : List α) : List α :=
  if i < 0 then xs.drop (((xs.length : Int) + i).toNat)
  else xs.drop (min xs.length i.toNat)

/-- One memory entry, the dict built by `RAGPipeline._add_to_memory`. -/
structure Exchange where
  timestamp : Nat
  question : String
  response : String
  sources : List String
  exchange_id : Nat
deriving DecidableEq, Repr

/-- A LangChain `Document` after the ingest loop stamped
`doc.metadata["filename"]`. -/
structure Doc where
  page_content : String
  filename : String
deriving DecidableEq, Repr

/-- The FAISS vector store, opaque except for the chunks it was built from. -/
structure Index where
  chunks : List Doc
deriving DecidableEq, Repr

/-- The mutable state of a `RAGPipeline` object (`__init__`, lines 52-57):
`vectorstore = None`, `rag_chain = None`, `documents_loaded = False`,
`memory = []`, `max_memory = 20`. -/
structure RAGPipeline where
  vectorstore : Option Index
  rag_chain : Option Unit
  documents_loaded : Bool
  memory : List Exchange
  max_memory : Nat
deriving DecidableEq, Repr

/-- The state right after `RAGPipeline.__init__`. -/
def initPipeline : RAGPipeline :=
  { vectorstore := none
    rag_chain := none
    documents_loaded := false
    memory := []
    max_memory := 20 }

/-- The dict literal appended by `_add_to_memory`:
`exchange_id` is `len(self.memory) + 1` at append time. -/
def mkExchange (st : RAGPipeline) (ts : Nat) (question response : String)
    (sources : List String) : Exchange :=
  { timestamp := ts
    question := question
    response := response
    sources := sources
    exchange_id := st.memory.length + 1 }

/-- The trim pattern shared by `_add_to_memory` and `set_memory_length`:
`if len(mem) > cap: mem = mem[-cap:]`. -/
def trimTo (cap : Nat) (mem : List Exchange) : List Exchange :=
  if mem.length > cap then pySliceFrom (-(cap : Int)) mem else mem

/-- Model of `RAGPipeline._add_to_memory`: append the new exchange, then trim with
`self.memory = self.memory[-self.max_memory:]` when the bound is exceeded. -/
def add_to_memory (st : RAGPipeline) (ts : Nat) (question response : String)
    (sources : List String) : RAGPipeline :=
  { st with memory :=
      trimTo st.max_memory (st.memory ++ [mkExchange st ts question response sources]) }

/-- Model of `RAGPipeline.get_memory`: returns a copy of the log (in the pure model the
snapshot is the log itself). -/
def get_memory (st : RAGPipeline) : List Exchange :=
  st.memory

/-- Model of `RAGPipeline.get_recent_memory`:
`return self.memory[-n:] if self.memory else []`. -/
def get_recent_memory (st : RAGPipeline) (n : Int) : List Exchange :=
  if st.memory.isEmpty then [] else pySliceFrom (-n) st.memory

/-- Model of `RAGPipeline.clear_memory`: `self.memory = []`. -/
def clear_memory (st : RAGPipeline) : RAGPipeline :=
  { st with memory := [] }

/-- Python `str.lower()` viewed as a character list. -/
def lowerChars (s : String) : List Char :=
  s.data.map Char.toLower

/-- Tests whether `needle` is an initial segment of `hay`. -/
def charStarts : List Char → List Char → Bool
  | [], _ => true
  | _ :: _, [] => false
  | a :: as, b :: bs => (a == b) && charStarts as bs

/-- Python substring containment `needle in hay` on character lists. -/
def charSub (needle : List Char) : List Char → Bool
  | [] => charStarts needle []
  | b :: bs => charStarts needle (b :: bs) || charSub needle bs

/-- The per-entry test of `RAGPipeline.search_memory`:
`query_lower in ex["question"].lower() or query_lower in ex["response"].lower()`
(case-insensitive substring containment). -/
def memMatches (q : String) (ex : Exchange) : Bool :=
  charSub (lowerChars q) (lowerChars ex.question) ||
  charSub (lowerChars q) (lowerChars ex.response)

/-- Model of `RAGPipeline.search_memory`: empty log short-circuits to `[]`; otherwise
filter the log in order and return `results[-limit:]`. -/
def search_memory (st : RAGPipeline) (q : String) (limit : Int) : List Exchange :=
  if st.memory.isEmpty then []
  else pySliceFrom (-limit) (st.memory.filter (memMatches q))

/-- Model of `RAGPipeline.set_memory_length`: `self.max_memory = max(1, length)`, then
trim `self.memory = self.memory[-self.max_memory:]` if the log exceeds the new
bound. -/
def set_memory_length (st : RAGPipeline) (length : Int) : RAGPipeline :=
  { st with
      max_memory := (max 1 length).toNat
      memory := trimTo ((max 1 length).toNat) st.memory }

/-- The dict returned by `RAGPipeline.query`. -/
structure QueryResult where
  response : String
  sources : List String
  num_sources : Nat
  memory_length : Nat
  success : Bool
deriving DecidableEq, Repr

/-- Model of `RAGPipeline.query`: raises `ValueError("No documents loaded")` unless
`documents_loaded`; otherwise invokes the rag chain (oracle `gen`), records the
exchange, and returns the result dict.  A generation exception `e` is caught:
the error string is recorded with empty sources and `success = False`. -/
def query (st : RAGPipeline) (ts : Nat) (question : String)
    (gen : Except String (String × List String)) :
    Except String QueryResult × RAGPipeline :=
  if st.documents_loaded = false then (Except.error "No documents loaded", st)
  else
    match gen with
    | Except.ok (response, sources) =>
        (Except.ok
          { response := response
            sources := sources
            num_sources := sources.length
            memory_length := (add_to_memory st ts question response sources).memory.length
            success := true },
         add_to_memory st ts question response sources)
    | Except.error e =>
        (Except.ok
          { response := "Error: " ++ e
            sources := []
            num_sources := 0
            memory_length := (add_to_memory st ts question ("Error: " ++ e) []).memory.length
            success := false },
         add_to_memory st ts question ("Error: " ++ e) [])

/-- Model of `RAGPipeline.query_with_memory_context`: with `use_memory = False` it saves
`old_memory = self.memory`, rebinds `self.memory = []`, runs `self.query`, then
rebinds `self.memory = old_memory` and returns; if `query` raises, the restore
line is skipped.  With `use_memory = True` it is plain `query`. -/
def query_with_memory_context (st : RAGPipeline) (ts : Nat) (question : String)
    (gen : Except String (String × List String)) (use_memory : Bool) :
    Except String QueryResult × RAGPipeline :=
  if use_memory = false then
    match (query { st with memory := [] } ts question gen).1 with
    | Except.ok r =>
        (Except.ok r,
          { (query { st with memory := [] } ts question gen).2 with memory := st.memory })
    | Except.error e =>
        (Except.error e, (query { st with memory := [] } ts question gen).2)
  else query st ts question gen

/-- Model of `RAGPipeline.reset`: null out the store and the chain, drop the flag and
the log; `max_memory` is untouched. -/
def reset (st : RAGPipeline) : RAGPipeline :=
  { st with
      vectorstore := none
      rag_chain := none
      documents_loaded := false
      memory := [] }

/-- One uploaded file as `ingest_documents` sees it: its filename together
with the outcome of the extension-dispatched decode (`PyPDFLoader` /
`TextLoader` / raw UTF-8 read) — either the page contents of the produced
documents or the message of the exception raised for this file. -/
structure UploadFile where
  filename : String
  decoded : Except String (List String)

/-- The documents produced for one file, each stamped with
`doc.metadata["filename"] = file.filename`. -/
def decodeFile (f : UploadFile) : Except String (List Doc) :=
  f.decoded.map (fun cs => cs.map (fun c => { page_content := c, filename := f.filename }))

/-- The accumulation loop of `ingest_documents`: extend `documents` and
`processed_files` on success, append `"Error with <name>: <msg>"` to `errors`
on a per-file exception. -/
def collectFiles (files : List UploadFile) : List Doc × List String × List String :=
  files.foldl
    (fun acc f =>
      match decodeFile f with
      | Except.ok ds => (acc.1 ++ ds, acc.2.1 ++ [f.filename], acc.2.2)
      | Except.error e =>
          (acc.1, acc.2.1, acc.2.2 ++ ["Error with " ++ f.filename ++ ": " ++ e]))
    ([], [], [])

/-- The dict returned by a successful `ingest_documents`. -/
structure IngestResult where
  processed_files : List String
  total_chunks : Nat
  errors : List String
  success : Bool
deriving DecidableEq, Repr

/-- Model of `RAGPipeline.ingest_documents`: after the per-file loop, raise
`ValueError("No documents processed")` when no document was collected
(leaving all state untouched); otherwise split into chunks (`split` is the
external text splitter), build a fresh FAISS store, build the chain, and set
`documents_loaded = True`. -/
def ingest_documents (split : List Doc → List Doc) (st : RAGPipeline)
    (files : List UploadFile) : Except String IngestResult × RAGPipeline :=
  if (collectFiles files).1.isEmpty then (Except.error "No documents processed", st)
  else
    (Except.ok
      { processed_files := (collectFiles files).2.1
        total_chunks := (split (collectFiles files).1).length
        errors := (collectFiles files).2.2
        success := true },
     { st with
        vectorstore := some { chunks := split (collectFiles files).1 }
        rag_chain := some ()
        documents_loaded := true })

/-- The outcome of the `/chat/` FastAPI handler: either the 200 `ChatResponse`
body or a raised `HTTPException` with its status code and detail. -/
inductive ChatOutcome where
  | ok (response : String) (sources : List String) (num_sources : Nat) (memory_length : Nat)
  | httpError (status : Nat) (detail : String)
deriving DecidableEq, Repr

/-- Whether a chat outcome is a success-class (2xx) HTTP transaction. -/
def isSuccessHttp : ChatOutcome → Bool
  | ChatOutcome.ok _ _ _ _ => true
  | ChatOutcome.httpError _ _ => false

/-- The `/chat/` handler of src/main.py: 400 when no documents are loaded;
otherwise run `rag.query`; a result with `success == False` is turned into
`HTTPException(500, detail=result["response"])`; any other exception becomes
a 500 with prefix `"Error processing chat: "`. -/
def chat (st : RAGPipeline) (ts : Nat) (message : String)
    (gen : Except String (String × List String)) : ChatOutcome × RAGPipeline :=
  if st.documents_loaded = false then
    (ChatOutcome.httpError 400 "No documents loaded. Please upload and process files first.", st)
  else
    match (query st ts message gen).1 with
    | Except.ok res =>
        if res.success = false then
          (ChatOutcome.httpError 500 res.response, (query st ts message gen).2)
        else
          (ChatOutcome.ok res.response res.sources res.num_sources res.memory_length,
            (query st ts message gen).2)
    | Except.error e =>
        (ChatOutcome.httpError 500 ("Error processing chat: " ++ e),
          (query st ts message gen).2)

/-- The memory-only operations quantified over in the memory-bound claims. -/
inductive MemOp where
  | append (ts : Nat) (question response : String) (sources : List String)
  | setCap (n : Int)

/-- Run one memory operation on the pipeline state. -/
def applyMemOp (st : RAGPipeline) : MemOp → RAGPipeline
  | MemOp.append ts q r s => add_to_memory st ts q r s
  | MemOp.setCap n => set_memory_length st n

/-- Run a sequence of memory operations. -/
def applyMemOps (st : RAGPipeline) : List MemOp → RAGPipeline
  | [] => st
  | op :: ops => applyMemOps (applyMemOp st op) ops

/-- The full stream of exchanges appended during a run of memory operations,
in append order (trimming never removes entries from this virtual stream). -/
def memStreamFrom (st : RAGPipeline) : List MemOp → List Exchange
  | [] => []
  | MemOp.append ts q r s :: ops =>
      mkExchange st ts q r s :: memStreamFrom (add_to_memory st ts q r s) ops
  | MemOp.setCap n :: ops => memStreamFrom (set_memory_length st n) ops

/-- Pure simulation of the log length along a run of memory operations:
append clamps at the capacity, `set_capacity` trims to the new capacity. -/
def memLenFrom (len cap : Nat) : List MemOp → Nat
  | [] => len
  | MemOp.append _ _ _ _ :: ops => memLenFrom (min (len + 1) cap) cap ops
  | MemOp.setCap n :: ops =>
      memLenFrom (min len ((max 1 n).toNat)) ((max 1 n).toNat) ops

/-- All state-changing pipeline operations, for the consistency invariant. -/
inductive PipeOp where
  | ingest (split : List Doc → List Doc) (files : List UploadFile)
  | ask (ts : Nat) (question : String) (gen : Except String (String × List String))
  | askCtx (ts : Nat) (question : String) (gen : Except String (String × List String))
      (use_memory : Bool)
  | clearMem
  | setCap (n : Int)
  | resetOp

/-- Run one pipeline operation, keeping only the successor state. -/
def applyPipeOp (st : RAGPipeline) : PipeOp → RAGPipeline
  | PipeOp.ingest split files => (ingest_documents split st files).2
  | PipeOp.ask ts q gen => (query st ts q gen).2
  | PipeOp.askCtx ts q gen u => (query_with_memory_context st ts q gen u).2
  | PipeOp.clearMem => clear_memory st
  | PipeOp.setCap n => set_memory_length st n
  | PipeOp.resetOp => reset st

/-- Run a sequence of pipeline operations. -/
def applyPipeOps (st : RAGPipeline) : List PipeOp → RAGPipeline
  | [] => st
  | op :: ops => applyPipeOps (applyPipeOp st op) ops

/-- The consistency predicate of the spec: `documents_loaded` implies both the
vector store and the rag chain are non-null. -/
def consistent (st : RAGPipeline) : Bool :=
  !st.documents_loaded || (st.vectorstore.isSome && st.rag_chain.isSome)

/-- A pipeline in the `LOADED` state with an empty memory log. -/
def loadedEmpty : RAGPipeline :=
  { vectorstore := some { chunks := [] }
    rag_chain := some ()
    documents_loaded := true
    memory := []
    max_memory := 20 }

/-- A concrete exchange used in counterexamples. -/
def e0 : Exchange :=
  { timestamp := 0, question := "hello", response := "world", sources := [], exchange_id := 1 }

/-- A fresh pipeline whose log holds the single exchange `e0`. -/
def mem1 : RAGPipeline :=
  { initPipeline with memory := [e0] }

/-- A run of `n` successive `append` calls with fixed texts. -/
def appendOps (n : Nat) : List MemOp :=
  List.replicate n (MemOp.append 0 "q" "a" [])

/-- An upload whose decode step raises. -/
def badFile : UploadFile :=
  { filename := "a.pdf", decoded := Except.error "decode failed" }

/-! ### Helper lemmas about slicing and trimming -/

theorem pySliceFrom_neg {α : Type} (k : Int) (hk : 1 ≤ k) (xs : List α) :
    pySliceFrom (-k) xs = xs.drop (xs.length - k.toNat) := by
  unfold pySliceFrom
  rw [if_pos (by omega)]
  congr 1
  omega

theorem length_pySliceFrom_neg {α : Type} (k : Int) (hk : 1 ≤ k) (xs : List α) :
    (pySliceFrom (-k) xs).length = min xs.length k.toNat := by
  rw [pySliceFrom_neg k hk, List.length_drop]
  omega

theorem pySliceFrom_suffix {α : Type} (i : Int) (xs : List α) :
    List.IsSuffix (pySliceFrom i xs) xs := by
  unfold pySliceFrom
  split
  · exact List.drop_suffix _ _
  · exact List.drop_suffix _ _

theorem trimTo_length (cap : Nat) (hc : 1 ≤ cap) (mem : List Exchange) :
    (trimTo cap mem).length = min mem.length cap := by
  unfold trimTo
  split
  · rw [length_pySliceFrom_neg (cap : Int) (by exact_mod_cast hc)]
    simp
  · omega

theorem trimTo_suffix (cap : Nat) (mem : List Exchange) :
    List.IsSuffix (trimTo cap mem) mem := by
  unfold trimTo
  split
  · exact pySliceFrom_suffix _ _
  · exact List.suffix_refl _

theorem trimTo_getLast (cap : Nat) (mem : List Exchange) (a : Exchange) :
    (trimTo cap (mem ++ [a])).getLast? = some a := by
  unfold trimTo
  split
  · unfold pySliceFrom
    split
    · rename_i hneg
      have hcap : 1 ≤ cap := by omega
      have hle : (((mem ++ [a]).length : Int) + -(cap : Int)).toNat ≤ mem.length := by
        simp only [List.length_append, List.length_singleton]
        omega
      rw [List.drop_append_of_le_length hle, List.getLast?_concat]
    · have hzero : (Int.toNat (-(cap : Int))) = 0 := by omega
      rw [hzero]
      simp [List.getLast?_concat]
  · exact List.getLast?_concat _

theorem suffix_append_right {α : Type} {l1 l2 : List α} (l3 : List α)
    (h : List.IsSuffix l1 l2) : List.IsSuffix (l1 ++ l3) (l2 ++ l3) := by
  obtain ⟨t, ht⟩ := h
  exact ⟨t, by rw [← ht, List.append_assoc]⟩

/-! ### Step lemmas for the memory operations -/

theorem add_to_memory_length (st : RAGPipeline) (ts : Nat) (q r : String)
    (s : List String) (h : 1 ≤ st.max_memory) :
    (add_to_memory st ts q r s).memory.length = min (st.memory.length + 1) st.max_memory := by
  unfold add_to_memory
  simp only [trimTo_length st.max_memory h, List.length_append, List.length_singleton]

theorem add_to_memory_max (st : RAGPipeline) (ts : Nat) (q r : String) (s : List String) :
    (add_to_memory st ts q r s).max_memory = st.max_memory := rfl

theorem add_to_memory_suffix (st : RAGPipeline) (ts : Nat) (q r : String) (s : List String) :
    List.IsSuffix (add_to_memory st ts q r s).memory
      (st.memory ++ [mkExchange st ts q r s]) :=
  trimTo_suffix _ _

theorem add_to_memory_getLast (st : RAGPipeline) (ts : Nat) (q r : String) (s : List String) :
    (add_to_memory st ts q r s).memory.getLast? = some (mkExchange st ts q r s) :=
  trimTo_getLast _ _ _

theorem set_memory_length_max (st : RAGPipeline) (n : Int) :
    (set_memory_length st n).max_memory = (max 1 n).toNat := rfl

theorem set_memory_length_len (st : RAGPipeline) (n : Int) :
    (set_memory_length st n).memory.length = min st.memory.length ((max 1 n).toNat) := by
  unfold set_memory_length
  exact trimTo_length _ (by omega) _

theorem set_memory_length_suffix (st : RAGPipeline) (n : Int) :
    List.IsSuffix (set_memory_length st n).memory st.memory :=
  trimTo_suffix _ _

/-- Invariant lemma for runs of memory operations: from any state whose
capacity is positive and whose log respects the bound, (1) the capacity stays
positive, (2) the bound keeps holding, (3) the log length is exactly the
simulated `memLenFrom` value, and (4) the log is a suffix of the full append
stream, i.e. the retained entries are the most recently appended ones. -/
theorem applyMemOps_spec (ops : List MemOp) : ∀ (st : RAGPipeline),
    1 ≤ st.max_memory → st.memory.length ≤ st.max_memory →
    1 ≤ (applyMemOps st ops).max_memory ∧
    (applyMemOps st ops).memory.length ≤ (applyMemOps st ops).max_memory ∧
    (applyMemOps st ops).memory.length = memLenFrom st.memory.length st.max_memory ops ∧
    List.IsSuffix (applyMemOps st ops).memory (st.memory ++ memStreamFrom st ops) := by
  induction ops with
  | nil =>
    intro st h1 h2
    refine ⟨h1, h2, rfl, ?_⟩
    simp [applyMemOps, memStreamFrom]
  | cons op ops ih =>
    intro st h1 h2
    cases op with
    | append ts q r s =>
      have hlen := add_to_memory_length st ts q r s h1
      have hmax := add_to_memory_max st ts q r s
      have h1a : 1 ≤ (add_to_memory st ts q r s).max_memory := by rw [hmax]; exact h1
      have h2a : (add_to_memory st ts q r s).memory.length ≤
          (add_to_memory st ts q r s).max_memory := by rw [hlen, hmax]; omega
      obtain ⟨g1, g2, g3, g4⟩ := ih (add_to_memory st ts q r s) h1a h2a
      refine ⟨g1, g2, ?_, ?_⟩
      · show (applyMemOps (add_to_memory st ts q r s) ops).memory.length =
          memLenFrom st.memory.length st.max_memory (MemOp.append ts q r s :: ops)
        rw [g3, hlen, hmax, memLenFrom]
      · show List.IsSuffix (applyMemOps (add_to_memory st ts q r s) ops).memory
          (st.memory ++ memStreamFrom st (MemOp.append ts q r s :: ops))
        have hstep : List.IsSuffix
            ((add_to_memory st ts q r s).memory ++ memStreamFrom (add_to_memory st ts q r s) ops)
            ((st.memory ++ [mkExchange st ts q r s]) ++ memStreamFrom (add_to_memory st ts q r s) ops) :=
          suffix_append_right _ (add_to_memory_suffix st ts q r s)
        have heq : (st.memory ++ [mkExchange st ts q r s]) ++
            memStreamFrom (add_to_memory st ts q r s) ops =
            st.memory ++ memStreamFrom st (MemOp.append ts q r s :: ops) := by
          rw [memStreamFrom, List.append_assoc]
          rfl
        rw [← heq]
        exact g4.trans hstep
    | setCap n =>
      have hlen := set_memory_length_len st n
      have hmax := set_memory_length_max st n
      have h1a : 1 ≤ (set_memory_length st n).max_memory := by rw [hmax]; omega
      have h2a : (set_memory_length st n).memory.length ≤
          (set_memory_length st n).max_memory := by rw [hlen, hmax]; omega
      obtain ⟨g1, g2, g3, g4⟩ := ih (set_memory_length st n) h1a h2a
      refine ⟨g1, g2, ?_, ?_⟩
      · show (applyMemOps (set_memory_length st n) ops).memory.length =
          memLenFrom st.memory.length st.max_memory (MemOp.setCap n :: ops)
        rw [g3, hlen, hmax, memLenFrom]
      · show List.IsSuffix (applyMemOps (set_memory_length st n) ops).memory
          (st.memory ++ memStreamFrom st (MemOp.setCap n :: ops))
        have hstep : List.IsSuffix
            ((set_memory_length st n).memory ++ memStreamFrom (set_memory_length st n) ops)
            (st.memory ++ memStreamFrom (set_memory_length st n) ops) :=
          suffix_append_right _ (set_memory_length_suffix st n)
        have heq : st.memory ++ memStreamFrom (set_memory_length st n) ops =
            st.memory ++ memStreamFrom st (MemOp.setCap n :: ops) := by
          rw [memStreamFrom]
        rw [← heq]
        exact g4.trans hstep

/-! ### Claim theorems -/

/-- Claim C3: after any sequence of `append` and `set_capacity` operations on
the pipeline, the length of the memory log is at most `max_memory`, the length
equals the clamp-and-trim simulation `memLenFrom 0 20` (so trimming happens
immediately, never lazily), and the log is a suffix of the full stream of
appended exchanges — the retained entries are exactly the most recently
appended ones, oldest discarded first. -/
theorem memory_bound_invariant (ops : List MemOp) :
    (applyMemOps initPipeline ops).memory.length ≤ (applyMemOps initPipeline ops).max_memory ∧
    (applyMemOps initPipeline ops).memory.length = memLenFrom 0 20 ops ∧
    List.IsSuffix (applyMemOps initPipeline ops).memory (memStreamFrom initPipeline ops) := by
  obtain ⟨g1, g2, g3, g4⟩ := applyMemOps_spec ops initPipeline (by decide) (by decide)
  refine ⟨g2, ?_, ?_⟩
  · simpa [initPipeline] using g3
  · simpa [initPipeline] using g4

/-- Claim C1 (code bug): `_add_to_memory` computes `exchange_id` as
`len(self.memory) + 1`, so once the log is full every further append reuses
id `max_memory + 1`.  After 25 appends with the default `max_memory = 20`,
`get_memory` holds 20 entries whose ids are 6..21 followed by 21 four more
times — not the ids 6..25 the claim states, and not strictly increasing. -/
theorem exchange_ids_after_trim :
    (get_memory (applyMemOps initPipeline (appendOps 25))).map (fun e => e.exchange_id) =
      [6, 7, 8, 9, 10, 11, 12, 13, 14, 15, 16, 17, 18, 19, 20, 21, 21, 21, 21, 21] ∧
    (get_memory (applyMemOps initPipeline (appendOps 25))).map (fun e => e.exchange_id) ≠
      [6, 7, 8, 9, 10, 11, 12, 13, 14, 15, 16, 17, 18, 19, 20, 21, 22, 23, 24, 25] := by
  constructor
  · decide
  · decide

/-- Claim C2 (code bug): on the loaded pipeline,
`query_with_memory_context(question, use_memory=False)` rebinds
`self.memory = []`, lets `query` append the exchange to that temporary list,
and then rebinds `self.memory = old_memory` — so the recorded exchange is
discarded and the real memory log is left exactly as it was, instead of
growing by one entry. -/
theorem query_without_memory_loses_exchange (st : RAGPipeline) (ts : Nat) (q : String)
    (gen : Except String (String × List String)) (h : st.documents_loaded = true) :
    (query_with_memory_context st ts q gen false).2.memory = st.memory := by
  cases gen with
  | ok pr => cases pr with
    | mk response sources => simp [query_with_memory_context, query, h]
  | error e => simp [query_with_memory_context, query, h]

/-- Witness for C2: one no-memory query on a freshly loaded pipeline with an
empty log leaves the log empty. -/
theorem query_without_memory_loses_exchange_witness :
    loadedEmpty.documents_loaded = true ∧
    (query_with_memory_context loadedEmpty 0 "hello"
        (Except.ok ("an answer", ["notes.txt"])) false).2.memory = loadedEmpty.memory :=
  ⟨rfl, query_without_memory_loses_exchange loadedEmpty 0 "hello"
      (Except.ok ("an answer", ["notes.txt"])) rfl⟩

/-- Counterexample for C4: with documents loaded and a failing generation, the
query result is a well-formed record with `success = false`, yet the `/chat/`
handler raises `HTTPException(500, ...)` — not a success-class response. -/
theorem chat_error_status_counterexample :
    (query loadedEmpty 0 "q" (Except.error "boom")).1 =
      Except.ok
        { response := "Error: boom", sources := [], num_sources := 0
          memory_length := 1, success := false } ∧
    (chat loadedEmpty 0 "q" (Except.error "boom")).1 =
      ChatOutcome.httpError 500 "Error: boom" ∧
    isSuccessHttp (chat loadedEmpty 0 "q" (Except.error "boom")).1 = false := by
  refine ⟨rfl, rfl, rfl⟩

/-- Claim C4 as amended: for every query processed while documents are loaded
whose result record has `success = false`, the chat endpoint raises
`HTTPException` with server-error status 500 and the response string of the failed answer
string as detail (it does not return a success-class response). -/
theorem chat_500_on_failed_answer (st : RAGPipeline) (ts : Nat) (msg : String)
    (gen : Except String (String × List String)) (r : QueryResult)
    (hload : st.documents_loaded = true)
    (hr : (query st ts msg gen).1 = Except.ok r) (hs : r.success = false) :
    (chat st ts msg gen).1 = ChatOutcome.httpError 500 r.response := by
  simp [chat, hload, hr, hs]

/-- Witness for the amended C4 at a concrete loaded state and failing
generation. -/
theorem chat_500_on_failed_answer_witness :
    loadedEmpty.documents_loaded = true ∧
    (query loadedEmpty 0 "q" (Except.error "boom")).1 =
      Except.ok
        { response := "Error: boom", sources := [], num_sources := 0
          memory_length := 1, success := false } ∧
    ({ response := "Error: boom", sources := [], num_sources := 0
       memory_length := 1, success := false } : QueryResult).success = false ∧
    (chat loadedEmpty 0 "q" (Except.error "boom")).1 =
      ChatOutcome.httpError 500 "Error: boom" :=
  ⟨rfl, rfl, rfl,
    chat_500_on_failed_answer loadedEmpty 0 "q" (Except.error "boom")
      { response := "Error: boom", sources := [], num_sources := 0
        memory_length := 1, success := false } rfl rfl rfl⟩

/-- Counterexample for C5: on a one-entry log, `get_recent_memory 0` evaluates
`self.memory[-0:] = self.memory[0:]`, returning the whole log instead of the
empty sequence the claim states for `n ≤ 0`. -/
theorem get_recent_zero_counterexample :
    get_recent_memory mem1 0 = [e0] ∧ ([e0] : List Exchange) ≠ [] := by
  constructor
  · decide
  · decide

/-- Claim C5 as amended: for `n ≥ 1`, `get_recent_memory` returns the last
`min(n, len)` entries in chronological order (the `drop` of a prefix); an
empty log yields the empty sequence for every `n`; but for `n ≤ 0` on a
non-empty log the code returns the log with its first `min(-n, len)` entries
dropped — in particular all of it when `n = 0` — not the empty sequence. -/
theorem get_recent_spec (st : RAGPipeline) (n : Int) :
    (1 ≤ n → get_recent_memory st n = st.memory.drop (st.memory.length - n.toNat)) ∧
    (st.memory = [] → get_recent_memory st n = []) ∧
    (n ≤ 0 → st.memory ≠ [] →
      get_recent_memory st n = st.memory.drop (min st.memory.length (-n).toNat)) := by
  refine ⟨?_, ?_, ?_⟩
  · intro hn
    unfold get_recent_memory
    by_cases hm : st.memory.isEmpty = true
    · rw [if_pos hm]
      rw [List.isEmpty_iff] at hm
      rw [hm]
      simp
    · rw [if_neg hm, pySliceFrom_neg n hn]
  · intro hm
    unfold get_recent_memory
    rw [if_pos (by rw [List.isEmpty_iff]; exact hm)]
  · intro hn hm
    unfold get_recent_memory pySliceFrom
    rw [if_neg (by rw [List.isEmpty_iff]; exact hm), if_neg (by omega)]

/-- Witness for the amended C5: `n = 1` on the one-entry log returns that
entry, the empty log returns the empty sequence, and `n = 0` on the one-entry
log returns the whole log. -/
theorem get_recent_spec_witness :
    ((1 : Int) ≤ 1 ∧
      get_recent_memory mem1 1 = mem1.memory.drop (mem1.memory.length - (1 : Int).toNat)) ∧
    (initPipeline.memory = [] ∧ get_recent_memory initPipeline 3 = []) ∧
    ((0 : Int) ≤ 0 ∧ mem1.memory ≠ [] ∧
      get_recent_memory mem1 0 = mem1.memory.drop (min mem1.memory.length (-(0 : Int)).toNat)) :=
  ⟨⟨by decide, (get_recent_spec mem1 1).1 (by decide)⟩,
   ⟨rfl, (get_recent_spec initPipeline 3).2.1 rfl⟩,
   ⟨by decide, by decide, (get_recent_spec mem1 0).2.2 (by decide) (by decide)⟩⟩

/-- Claim C6: when documents are loaded and answer generation raises `e`,
`query` does not propagate the exception: it appends an exchange whose
response is the explanatory string `"Error: " ++ e` and whose sources are
empty, and returns a record with `success = false`, empty sources,
`num_sources = 0` and `memory_length` equal to the log length after the
append. -/
theorem query_generation_failure (st : RAGPipeline) (ts : Nat) (q e : String)
    (h : st.documents_loaded = true) :
    (query st ts q (Except.error e)).1 =
      Except.ok
        { response := "Error: " ++ e, sources := [], num_sources := 0
          memory_length := (add_to_memory st ts q ("Error: " ++ e) []).memory.length
          success := false } ∧
    (query st ts q (Except.error e)).2 = add_to_memory st ts q ("Error: " ++ e) [] ∧
    (query st ts q (Except.error e)).2.memory.getLast? =
      some (mkExchange st ts q ("Error: " ++ e) []) := by
  refine ⟨?_, ?_, ?_⟩ <;> simp [query, h, add_to_memory_getLast]

/-- Witness for C6 on a concrete loaded pipeline and failing generation. -/
theorem query_generation_failure_witness :
    loadedEmpty.documents_loaded = true ∧
    (query loadedEmpty 0 "q" (Except.error "boom")).1 =
      Except.ok
        { response := "Error: " ++ "boom", sources := [], num_sources := 0
          memory_length := (add_to_memory loadedEmpty 0 "q" ("Error: " ++ "boom") []).memory.length
          success := false } :=
  ⟨rfl, (query_generation_failure loadedEmpty 0 "q" "boom" rfl).1⟩

/-- Claim C7: whenever `documents_loaded` is false, `query` raises
`ValueError("No documents loaded")` (the `NotReadyError` of the spec) and the
state — in particular the memory log — is unchanged. -/
theorem query_not_ready (st : RAGPipeline) (ts : Nat) (q : String)
    (gen : Except String (String × List String)) (h : st.documents_loaded = false) :
    (query st ts q gen).1 = Except.error "No documents loaded" ∧
    (query st ts q gen).2 = st := by
  constructor <;> simp [query, h]

/-- Witness for C7: a query on the freshly constructed pipeline fails and
records nothing. -/
theorem query_not_ready_witness :
    initPipeline.documents_loaded = false ∧
    (query initPipeline 0 "What is the capital of France?" (Except.ok ("Paris", []))).1 =
      Except.error "No documents loaded" ∧
    (query initPipeline 0 "What is the capital of France?" (Except.ok ("Paris", []))).2 =
      initPipeline :=
  ⟨rfl,
    (query_not_ready initPipeline 0 "What is the capital of France?"
      (Except.ok ("Paris", [])) rfl).1,
    (query_not_ready initPipeline 0 "What is the capital of France?"
      (Except.ok ("Paris", [])) rfl).2⟩

/-- Counterexample for C8: with one matching entry and `limit = 0`, the code
evaluates `results[-0:] = results[0:]` and returns the whole match list —
one entry, though the claim allows at most `limit = 0` of them. -/
theorem search_limit_zero_counterexample :
    search_memory mem1 "hello" 0 = [e0] ∧
    ¬ ((search_memory mem1 "hello" 0).length ≤ 0) := by
  constructor
  · decide
  · decide

/-- Claim C8 as amended: for every `limit ≥ 1`, `search_memory` returns
exactly the tail of length at most `limit` of the chronological list of
entries whose question or response contains the query case-insensitively
(filter first, then take the tail); for `limit ≤ 0` the cap is not honoured —
`limit = 0` returns every match. -/
theorem search_memory_spec (st : RAGPipeline) (q : String) (limit : Int)
    (h : 1 ≤ limit) :
    search_memory st q limit =
      (st.memory.filter (memMatches q)).drop
        ((st.memory.filter (memMatches q)).length - limit.toNat) := by
  unfold search_memory
  by_cases hm : st.memory.isEmpty = true
  · rw [if_pos hm]
    rw [List.isEmpty_iff] at hm
    rw [hm]
    simp
  · rw [if_neg hm, pySliceFrom_neg limit h]

/-- Witness for the amended C8: `limit = 1` on the one-entry log. -/
theorem search_memory_spec_witness :
    (1 : Int) ≤ 1 ∧
    search_memory mem1 "hello" 1 =
      (mem1.memory.filter (memMatches "hello")).drop
        ((mem1.memory.filter (memMatches "hello")).length - (1 : Int).toNat) :=
  ⟨by decide, search_memory_spec mem1 "hello" 1 (by decide)⟩

/-- Claim C9: when the per-file loop collects no document at all,
`ingest_documents` raises `ValueError("No documents processed")` and the whole
pipeline state — `documents_loaded`, the vector store and the memory log —
keeps its prior value. -/
theorem ingest_no_documents (st : RAGPipeline) (split : List Doc → List Doc)
    (files : List UploadFile) (h : (collectFiles files).1 = []) :
    ingest_documents split st files = (Except.error "No documents processed", st) := by
  unfold ingest_documents
  rw [if_pos (by rw [List.isEmpty_iff]; exact h)]

/-- Witness for C9: a batch holding one file whose decode raises. -/
theorem ingest_no_documents_witness :
    (collectFiles [badFile]).1 = [] ∧
    ingest_documents (fun ds => ds) initPipeline [badFile] =
      (Except.error "No documents processed", initPipeline) :=
  ⟨rfl, ingest_no_documents initPipeline (fun ds => ds) [badFile] rfl⟩

/-! ### Consistency invariant machinery -/

theorem query_snd_fields (st : RAGPipeline) (ts : Nat) (q : String)
    (gen : Except String (String × List String)) :
    (query st ts q gen).2.documents_loaded = st.documents_loaded ∧
    (query st ts q gen).2.vectorstore = st.vectorstore ∧
    (query st ts q gen).2.rag_chain = st.rag_chain := by
  by_cases h : st.documents_loaded = false
  · simp [query, h]
  · cases gen with
    | ok pr => cases pr with
      | mk response sources => simp [query, h, add_to_memory]
    | error e => simp [query, h, add_to_memory]

theorem queryCtx_snd_fields (st : RAGPipeline) (ts : Nat) (q : String)
    (gen : Except String (String × List String)) (u : Bool) :
    (query_with_memory_context st ts q gen u).2.documents_loaded = st.documents_loaded ∧
    (query_with_memory_context st ts q gen u).2.vectorstore = st.vectorstore ∧
    (query_with_memory_context st ts q gen u).2.rag_chain = st.rag_chain := by
  cases u with
  | true =>
    simpa [query_with_memory_context] using query_snd_fields st ts q gen
  | false =>
    obtain ⟨f1, f2, f3⟩ := query_snd_fields { st with memory := [] } ts q gen
    cases hq : (query { st with memory := [] } ts q gen).1 with
    | ok r =>
      refine ⟨?_, ?_, ?_⟩ <;> simp [query_with_memory_context, hq, f1, f2, f3]
    | error e =>
      refine ⟨?_, ?_, ?_⟩ <;> simp [query_with_memory_context, hq, f1, f2, f3]

theorem consistent_applyPipeOp (st : RAGPipeline) (op : PipeOp)
    (h : consistent st = true) : consistent (applyPipeOp st op) = true := by
  cases op with
  | ingest split files =>
    by_cases hc : (collectFiles files).1.isEmpty = true
    · simpa [applyPipeOp, ingest_documents, hc] using h
    · simp [applyPipeOp, ingest_documents, hc, consistent]
  | ask ts q gen =>
    obtain ⟨f1, f2, f3⟩ := query_snd_fields st ts q gen
    simpa [applyPipeOp, consistent, f1, f2, f3] using h
  | askCtx ts q gen u =>
    obtain ⟨f1, f2, f3⟩ := queryCtx_snd_fields st ts q gen u
    simpa [applyPipeOp, consistent, f1, f2, f3] using h
  | clearMem =>
    simpa [applyPipeOp, clear_memory, consistent] using h
  | setCap n =>
    simpa [applyPipeOp, set_memory_length, consistent] using h
  | resetOp =>
    simp [applyPipeOp, reset, consistent]

theorem consistent_applyPipeOps (ops : List PipeOp) : ∀ (st : RAGPipeline),
    consistent st = true → consistent (applyPipeOps st ops) = true := by
  induction ops with
  | nil => intro st h; exact h
  | cons op ops ih => intro st h; exact ih _ (consistent_applyPipeOp st op h)

/-- Claim C10: every state reachable from the initial pipeline by any sequence
of `ingest`, `query`, `query_without_memory`, `clear`, `set_capacity` and
`reset` operations is consistent: whenever `documents_loaded` is true, both
the vector store and the rag chain are non-null.  The state
`documents_loaded = true` with a null index is unreachable. -/
theorem pipeline_consistency (ops : List PipeOp) :
    consistent (applyPipeOps initPipeline ops) = true :=
  consistent_applyPipeOps ops initPipeline rfl

end DocRAG
